import Mathlib

/-!
# Verification of the biochatter reflexion-agent sources

Shallow embedding of `biochatter/kg_langgraph_agent.py`
(`KGQueryReflexionAgent`) and `biochatter/prompts.py` (`BioCypherPrompt`).

Conventions used throughout:

* JSON-like values occurring in query result rows are modelled by `BcValue`;
  a result row (a Python dict mapping field names to values) is a `BcRow`,
  an association list of field name / value pairs.
* Python exceptions are modelled with `Except`: a function that can raise
  returns `Except ε α`; a `try/except` block that swallows exceptions maps
  the error case to the Python fallback value.
* The neo4j driver (`neo4j_utils.Driver.query`, external library) returns a
  `(rows, summary)` tuple on success, as witnessed by the source comment in
  `_get_last_tool_results_num` showing `result[0]` serialized as a list of
  row dicts (`{"result": [{"c.name": None}]}`). `_query_graph_database`
  returns that tuple on success and the bare empty list `[]` on a caught
  driver error, so Python `result[0]` either projects the row list or raises
  `IndexError`; `PyQueryRet` models exactly this heterogeneous value.
* Tool message contents are JSON strings in the source. The only string
  `_tool_function` ever emits that `json.loads` rejects is the empty string
  `""`, so contents are modelled as `Option ToolPair`: `some p` is the
  serialization of the pair `p`, `none` is `""`.
-/

/-- A JSON-like value appearing in a database result row. -/
inductive BcValue
  | null
  | str (s : String)
  | num (n : Int)
deriving DecidableEq, Repr

/-- A result row: a mapping from field name to value
(a Python dict such as `{"c.name": None}`). -/
abbrev BcRow := List (String × BcValue)

/-- The null-like test from `_get_last_tool_results_num` (lines 188-192):
a field value is null-like when it is `None`, or a string equal to
`"None"` or `"null"`. -/
def isNullLike : BcValue → Bool
  | BcValue.null => true
  | BcValue.str s => s == "None" || s == "null"
  | BcValue.num _ => false

/-- A row is empty when every one of its fields is null-like
(inner loop of `_get_last_tool_results_num`; a row with no fields
leaves `empty = True`). -/
def rowEmpty (r : BcRow) : Bool :=
  r.all fun kv => isNullLike kv.2

/-- A result set is empty when all of its rows are empty; in particular a
result set with no rows is empty (the `len(results["result"]) > 0` guard
leaves `empty = True`). -/
def resultSetEmpty (rows : List BcRow) : Bool :=
  rows.all rowEmpty

/-- `return len(results["result"]) if not empty else 0` in
`_get_last_tool_results_num`. -/
def getResultsNum (rows : List BcRow) : Nat :=
  if resultSetEmpty rows then 0 else rows.length

/-- The `{"query": ..., "result": ...}` record `_tool_function` appends for
each executed query: the query string paired with `result[0]` of the value
returned by `_query_graph_database`, i.e. the full list of rows. -/
structure ToolPair where
  query : String
  result : List BcRow
deriving DecidableEq, Repr

/-- The `args` dict of one parsed tool call: the `GenerateQuery` /
`ReviseQuery` fields, with the optional keys `_tool_function` probes
(`"revised_query"`, `"Revised query"`, `"search_queries"`, and the
`SEARCH_QUERIES_DESCRIPTION` string used as a key). `none` means the key
is absent. -/
structure CallArgs where
  answer : String
  reflection : String
  revisedQuery : Option String
  revisedQueryAlt : Option String
  searchQueries : Option (List String)
  searchQueriesAlt : Option (List String)
deriving DecidableEq, Repr

/-- One element of `JsonOutputToolsParser.invoke`'s output: the parsed
arguments plus the tool call id. -/
structure ParsedCall where
  args : CallArgs
  id : String
deriving DecidableEq, Repr

/-- A message in the conversation state (`List[BaseMessage]`).
`ai` carries the tool calls parsed from an `AIMessage` by
`JsonOutputToolsParser`; `toolMsg` carries a `ToolMessage` content,
`none` standing for the unparseable empty string `""`. -/
inductive BcMessage
  | human (text : String)
  | ai (calls : List ParsedCall)
  | toolMsg (content : Option ToolPair)
deriving DecidableEq, Repr

/-- Whether a message is a `ToolMessage` (the `isinstance(m, ToolMessage)`
test). -/
def BcMessage.isToolMsg : BcMessage → Bool
  | BcMessage.toolMsg _ => true
  | _ => false

/-- Scan of the reversed state in `_get_last_tool_results_num`: skip
non-tool messages; at the first `ToolMessage`, `json.loads` its content
(raising on the empty string, modelled `Except.error ()`) and count the
rows of `results["result"]`; with no tool message return 0. -/
def lastToolResultsAux : List BcMessage → Except Unit Nat
  | [] => Except.ok 0
  | BcMessage.toolMsg none :: _ => Except.error ()
  | BcMessage.toolMsg (some c) :: _ => Except.ok (getResultsNum c.result)
  | _ :: rest => lastToolResultsAux rest

/-- `KGQueryReflexionAgent._get_last_tool_results_num` (lines 175-199):
iterate the state in reverse (`state[::-1]`) and report the row count of
the most recent tool result, `0` when that result set is empty. -/
def getLastToolResultsNum (state : List BcMessage) : Except Unit Nat :=
  lastToolResultsAux state.reverse

theorem lastToolResultsAux_append_of_no_tool (l rest : List BcMessage)
    (h : ∀ m ∈ l, m.isToolMsg = false) :
    lastToolResultsAux (l ++ rest) = lastToolResultsAux rest := by
  induction l with
  | nil => rfl
  | cons m l ih =>
    have hm : m.isToolMsg = false := h m (List.mem_cons_self m l)
    have hl : ∀ x ∈ l, x.isToolMsg = false := fun x hx => h x (List.mem_cons_of_mem m hx)
    cases m with
    | human t => simpa [lastToolResultsAux] using ih hl
    | ai a => simpa [lastToolResultsAux] using ih hl
    | toolMsg c => simp [BcMessage.isToolMsg] at hm

/-- **C1.** For the most recent tool message in the conversation state
(here: a tool message followed only by non-tool messages), with parsed
content `{"result": rows}`: `_get_last_tool_results_num` returns `0` when
the result set has no rows or every row has only null / `"None"` /
`"null"` fields, and returns the total row count when some row has a
field whose value is none of those three. -/
theorem get_last_tool_results_num_spec (pre post : List BcMessage)
    (q : String) (rows : List BcRow)
    (hpost : ∀ m ∈ post, m.isToolMsg = false) :
    ((rows = [] ∨ ∀ r ∈ rows, ∀ kv ∈ r, isNullLike kv.2 = true) →
      getLastToolResultsNum
        (pre ++ BcMessage.toolMsg (some ⟨q, rows⟩) :: post) = Except.ok 0)
  ∧ ((∃ r ∈ rows, ∃ kv ∈ r, isNullLike kv.2 = false) →
      getLastToolResultsNum
        (pre ++ BcMessage.toolMsg (some ⟨q, rows⟩) :: post) =
        Except.ok rows.length) := by
  have hrev : (pre ++ BcMessage.toolMsg (some ⟨q, rows⟩) :: post).reverse =
      post.reverse ++ BcMessage.toolMsg (some ⟨q, rows⟩) :: pre.reverse := by
    simp
  have hval : getLastToolResultsNum
      (pre ++ BcMessage.toolMsg (some ⟨q, rows⟩) :: post) =
      Except.ok (getResultsNum rows) := by
    unfold getLastToolResultsNum
    rw [hrev, lastToolResultsAux_append_of_no_tool]
    · rfl
    · intro m hm
      exact hpost m (List.mem_reverse.mp hm)
  constructor
  · intro h
    rw [hval]
    have hempty : resultSetEmpty rows = true := by
      cases h with
      | inl h0 => simp [resultSetEmpty, h0]
      | inr hall =>
        simp only [resultSetEmpty, List.all_eq_true]
        intro r hr
        simp only [rowEmpty, List.all_eq_true]
        intro kv hkv
        exact hall r hr kv hkv
    simp [getResultsNum, hempty]
  · rintro ⟨r, hr, kv, hkv, hfalse⟩
    rw [hval]
    have hnot : resultSetEmpty rows = false := by
      rw [Bool.eq_false_iff]
      intro hall
      simp only [resultSetEmpty, List.all_eq_true] at hall
      have hrow := hall r hr
      simp only [rowEmpty, List.all_eq_true] at hrow
      have hkv2 := hrow kv hkv
      rw [hfalse] at hkv2
      exact Bool.false_ne_true hkv2
    simp [getResultsNum, hnot]

/-- Witness for C1 at concrete inputs: one row with a real value counts 1;
rows that are all null-like count 0. -/
theorem get_last_tool_results_num_spec_witness :
    getLastToolResultsNum
      [BcMessage.toolMsg (some ⟨"MATCH (n) RETURN n.name",
        [[("n.name", BcValue.str "TP53")]]⟩)] = Except.ok 1 := by
  have h := (get_last_tool_results_num_spec [] []
      "MATCH (n) RETURN n.name" [[("n.name", BcValue.str "TP53")]]
      (by intro m hm; cases hm)).2
      ⟨[("n.name", BcValue.str "TP53")], by simp,
        ("n.name", BcValue.str "TP53"), by simp, by rfl⟩
  simpa using h

/-- The node names `END_NODE` / `EXECUTE_TOOL_NODE` imported from
`biochatter.langgraph_agent_base` (module not among the sources). -/
inductive AgentNode
  | endNode
  | executeToolNode
deriving DecidableEq, Repr

/-- Modelled from the spec: the base class step decision
`ReflexionAgent._should_continue` (module `biochatter.langgraph_agent_base`,
not among the sources) ends the loop exactly when the step budget is
exhausted; "the loop terminates only when either the step budget is
exhausted or the most recent tool result is judged non-empty", "if the
budget is exhausted, stop". `step` is the number of generate/revise cycles
completed so far. -/
def baseShouldContinue (maxSteps step : Nat) : AgentNode :=
  if maxSteps ≤ step then AgentNode.endNode else AgentNode.executeToolNode

/-- `KGQueryReflexionAgent._should_continue` (lines 201-207): defer to the
base decision; on end, end; otherwise end exactly when
`_get_last_tool_results_num` is positive, else go to the tool-execution
node. The `Except` propagates the `json.loads` failure on an empty tool
message content, which this function does not catch. -/
def shouldContinue (maxSteps step : Nat) (state : List BcMessage) :
    Except Unit AgentNode :=
  match baseShouldContinue maxSteps step with
  | AgentNode.endNode => Except.ok AgentNode.endNode
  | AgentNode.executeToolNode =>
    match getLastToolResultsNum state with
    | Except.error e => Except.error e
    | Except.ok n =>
      Except.ok (if 0 < n then AgentNode.endNode else AgentNode.executeToolNode)

/-- **C3, counterexample.** The claim "in every other state it continues to
the tool-execution node" fails: with the budget not exhausted (step 1 of 20)
and the most recent tool message carrying the empty content `""` (which
`_tool_function` emits when every query of the turn failed),
`_should_continue` raises a JSON decode error instead of returning either
node. -/
theorem should_continue_error_on_unparsed_content :
    (1 : Nat) < 20 ∧
    shouldContinue 20 1 [BcMessage.human "question", BcMessage.toolMsg none] =
      Except.error () := by
  exact ⟨by norm_num, rfl⟩

/-- **C3, amended.** `_should_continue` returns the end node exactly when
the step budget is exhausted or the most recent tool result parses and is
judged non-empty; in every other state whose most recent tool result
parses, it returns the tool-execution node (an unparseable content makes it
raise instead). -/
theorem should_continue_decision_spec (maxSteps step : Nat)
    (state : List BcMessage) :
    (shouldContinue maxSteps step state = Except.ok AgentNode.endNode ↔
      maxSteps ≤ step ∨
        ∃ n, getLastToolResultsNum state = Except.ok n ∧ 0 < n)
  ∧ (∀ n, step < maxSteps → getLastToolResultsNum state = Except.ok n →
      n = 0 →
      shouldContinue maxSteps step state = Except.ok AgentNode.executeToolNode) := by
  by_cases hle : maxSteps ≤ step
  · constructor
    · simp [shouldContinue, baseShouldContinue, hle]
    · intro n hlt _ _
      exact absurd hle (Nat.not_le_of_lt hlt)
  · cases hres : getLastToolResultsNum state with
    | error e =>
      constructor
      · constructor
        · intro h
          simp [shouldContinue, baseShouldContinue, hle, hres] at h
        · intro h
          rcases h with h0 | ⟨n, hn, _⟩
          · exact absurd h0 hle
          · exact Except.noConfusion hn
      · intro n _ hok _
        exact Except.noConfusion hok
    | ok n =>
      constructor
      · by_cases hpos : 0 < n
        · simp [shouldContinue, baseShouldContinue, hle, hres, hpos]
        · simp [shouldContinue, baseShouldContinue, hle, hres, hpos]
      · intro m hlt hok hm0
        injection hok with hnm
        subst hnm
        subst hm0
        simp [shouldContinue, baseShouldContinue, hle, hres]

/-- Witness for the amended C3: the decision ends on a non-empty result and
continues on an all-null one. -/
theorem should_continue_decision_spec_witness :
    shouldContinue 20 1
      [BcMessage.toolMsg (some ⟨"q1", [[("g.name", BcValue.str "BRCA2")]]⟩)] =
      Except.ok AgentNode.endNode ∧
    shouldContinue 20 1
      [BcMessage.toolMsg (some ⟨"q2", [[("g.name", BcValue.null)]]⟩)] =
      Except.ok AgentNode.executeToolNode := by
  constructor
  · exact (should_continue_decision_spec 20 1 _).1.mpr
      (Or.inr ⟨1, rfl, Nat.one_pos⟩)
  · exact (should_continue_decision_spec 20 1 _).2 0 (by norm_num) rfl rfl

/-- The heterogeneous return value of `_query_graph_database` (lines 90-96):
on success the driver's `(rows, summary)` tuple (the summary is irrelevant
and omitted), on a caught driver error the bare empty list `[]`.
Python `result[0]` projects the row list from the tuple but raises
`IndexError` on the empty list. -/
inductive PyQueryRet
  | tuple (rows : List BcRow)
  | emptyList
deriving DecidableEq, Repr

/-- `KGQueryReflexionAgent._query_graph_database` (lines 90-96): run the
query through the driver `db`; a raised driver error is logged and turned
into the empty list. -/
def queryGraphDatabase (db : String → Except String (List BcRow))
    (q : String) : PyQueryRet :=
  match db q with
  | Except.ok rows => PyQueryRet.tuple rows
  | Except.error _ => PyQueryRet.emptyList

/-- The `ToolMessage` built at the end of `_tool_function`: a content
(`none` is the empty string `""`) and the id of the last parsed call. -/
structure ToolMessageE where
  content : Option ToolPair
  toolCallId : String
deriving DecidableEq, Repr

/-- The `for query in queries` loop of `_tool_function` (lines 152-157):
each successful query appends the pair of the query and `result[0]` (the
full row list of the driver tuple); a caught driver error makes `result`
the bare `[]`, so `result[0]` raises `IndexError`, which the per-call
`except` catches — the pairs appended so far survive and the remaining
queries of this call are skipped. -/
def runQueries (db : String → Except String (List BcRow)) :
    List String → List ToolPair
  | [] => []
  | q :: rest =>
    match queryGraphDatabase db q with
    | PyQueryRet.tuple rows => ⟨q, rows⟩ :: runQueries db rest
    | PyQueryRet.emptyList => []

/-- The body of the `for parsed_message in parsed_tool_messages` loop of
`_tool_function` (lines 134-159): prefer the revised query under either of
its keys and run only it; otherwise run the search queries (a missing
search-queries key raises `KeyError`, caught). All exceptions of the body
are caught and logged, yielding whatever pairs were appended before. -/
def processMessage (db : String → Except String (List BcRow))
    (args : CallArgs) : List ToolPair :=
  match args.revisedQuery.orElse (fun _ => args.revisedQueryAlt) with
  | some q =>
    match queryGraphDatabase db q with
    | PyQueryRet.tuple rows => [⟨q, rows⟩]
    | PyQueryRet.emptyList => []
  | none =>
    match args.searchQueries.orElse (fun _ => args.searchQueriesAlt) with
    | some qs => runQueries db qs
    | none => []

/-- `KGQueryReflexionAgent._tool_function` (lines 130-173): run the parsed
tool calls, then pick the content: when more than one pair was collected,
scan for non-empty results — the scan has no `break`, so the LAST non-empty
pair wins; when that scan set nothing, serialize the first pair, or the
empty string `""` (`none`) when there is no pair at all. The tool call id
is read from the loop variable after the loop, so an empty parsed-call list
raises `NameError` (`Except.error ()`). -/
def toolFunction (db : String → Except String (List BcRow))
    (calls : List ParsedCall) : Except Unit ToolMessageE :=
  match calls.getLast? with
  | none => Except.error ()
  | some lastCall =>
    let results := (calls.map fun c => processMessage db c.args).flatten
    let scanned : Option ToolPair :=
      if 1 < results.length then
        (results.filter fun r => !r.result.isEmpty).getLast?
      else none
    let content : Option ToolPair :=
      match scanned with
      | some r => some r
      | none => results.head?
    Except.ok ⟨content, lastCall.id⟩

/-- A driver returning a distinct single-row result for each of two
queries. -/
def dbTwoQueries : String → Except String (List BcRow) := fun q =>
  if q = "q1" then Except.ok [[("g.name", BcValue.str "first")]]
  else Except.ok [[("g.name", BcValue.str "second")]]

/-- **C2.** Evaluation at the failing input: a proposal with the two search
queries `q1`, `q2`, both returning non-empty results. `_tool_function`
serializes the result of `q2` — the LAST non-empty result — although the
comment above the selection loop (lines 163-164) says "we only return the
first non-empty result": the loop lacks a `break`. -/
theorem tool_function_keeps_last_nonempty_result :
    toolFunction dbTwoQueries
      [⟨⟨"ans", "critique", none, none, some ["q1", "q2"], none⟩, "call_2"⟩] =
      Except.ok ⟨some ⟨"q2", [[("g.name", BcValue.str "second")]]⟩, "call_2"⟩ := by
  rfl

/-- A driver returning two rows for every query. -/
def dbTwoRows : String → Except String (List BcRow) := fun _ =>
  Except.ok [[("g.name", BcValue.str "r1")], [("g.name", BcValue.str "r2")]]

/-- A driver returning zero rows for every query. -/
def dbZeroRows : String → Except String (List BcRow) := fun _ =>
  Except.ok []

/-- A driver failing on every query. -/
def dbDown : String → Except String (List BcRow) := fun _ =>
  Except.error "ServiceUnavailable"

/-- **C10, counterexample.** A single query returning two rows: the tool
message serializes BOTH rows (`result[0]` of the driver return is the full
row list), not at most the first row; and a successful query with an empty
row list DOES contribute a `(query, result)` pair (with an empty list). -/
theorem tool_function_not_first_row_only :
    toolFunction dbTwoRows
      [⟨⟨"a", "r", none, none, some ["q"], none⟩, "call_a"⟩] =
      Except.ok ⟨some ⟨"q",
        [[("g.name", BcValue.str "r1")], [("g.name", BcValue.str "r2")]]⟩,
        "call_a"⟩ ∧
    toolFunction dbZeroRows
      [⟨⟨"a", "r", none, none, some ["q"], none⟩, "call_b"⟩] =
      Except.ok ⟨some ⟨"q", []⟩, "call_b"⟩ := by
  exact ⟨rfl, rfl⟩

/-- **C10, amended.** For each successfully executed query the collected
pair stores the FULL row list returned by the driver (element 0 of its
`(rows, summary)` return); a query hitting a caught database error
contributes no pair and skips the remaining queries of that tool call
(while a successful query with zero rows still contributes a pair with an
empty row list); and when no query contributes a pair the tool message
content is the empty string. -/
theorem tool_function_result_pairs_spec
    (db : String → Except String (List BcRow)) :
    (∀ q rows rest, db q = Except.ok rows →
      runQueries db (q :: rest) = ⟨q, rows⟩ :: runQueries db rest)
  ∧ (∀ q e rest, db q = Except.error e → runQueries db (q :: rest) = [])
  ∧ (∀ calls lastCall, calls.getLast? = some lastCall →
      (calls.map fun c => processMessage db c.args).flatten = [] →
      toolFunction db calls = Except.ok ⟨none, lastCall.id⟩) := by
  refine ⟨?_, ?_, ?_⟩
  · intro q rows rest hq
    simp [runQueries, queryGraphDatabase, hq]
  · intro q e rest hq
    simp [runQueries, queryGraphDatabase, hq]
  · intro calls lastCall hlast hjoin
    simp [toolFunction, hlast, hjoin]

/-- Witness for the amended C10 at concrete inputs. -/
theorem tool_function_result_pairs_spec_witness :
    runQueries dbTwoRows ["q"] =
      [⟨"q", [[("g.name", BcValue.str "r1")], [("g.name", BcValue.str "r2")]]⟩] ∧
    runQueries dbDown ["q", "q2"] = [] ∧
    toolFunction dbDown
      [⟨⟨"a", "r", none, none, some ["q"], none⟩, "call_c"⟩] =
      Except.ok ⟨none, "call_c"⟩ := by
  refine ⟨?_, ?_, ?_⟩
  · have h := (tool_function_result_pairs_spec dbTwoRows).1 "q"
      [[("g.name", BcValue.str "r1")], [("g.name", BcValue.str "r2")]] [] rfl
    simpa [runQueries] using h
  · exact (tool_function_result_pairs_spec dbDown).2.1 "q" "ServiceUnavailable" ["q2"] rfl
  · exact (tool_function_result_pairs_spec dbDown).2.2
      [⟨⟨"a", "r", none, none, some ["q"], none⟩, "call_c"⟩]
      ⟨⟨"a", "r", none, none, some ["q"], none⟩, "call_c"⟩ rfl rfl

/-- **C4.** Evaluation at the failing input: with the database unreachable,
a caught driver error makes `_query_graph_database` return the empty list
(that much of the claim holds) and `_tool_function` still returns a tool
message — but that message's content is the empty string, and the very
next step decision `_should_continue` fails to `json.loads` it and raises,
so the loop aborts instead of continuing. -/
theorem all_query_failures_abort_next_decision :
    queryGraphDatabase dbDown "MATCH (g:Gene) RETURN g" = PyQueryRet.emptyList ∧
    toolFunction dbDown
      [⟨⟨"a", "r", none, none, some ["MATCH (g:Gene) RETURN g"], none⟩,
        "call_4"⟩] = Except.ok ⟨none, "call_4"⟩ ∧
    shouldContinue 20 1
      [BcMessage.ai [⟨⟨"a", "r", none, none,
        some ["MATCH (g:Gene) RETURN g"], none⟩, "call_4"⟩],
       BcMessage.toolMsg none] = Except.error () := by
  exact ⟨rfl, rfl, rfl⟩

/-- `KGQueryReflexionAgent._parse_final_result` (lines 228-229):
`self.parser.invoke(output)[0]["args"]["answer"]` — the answer field of the
first tool call of the final LLM output (`none` models the `IndexError` on
an output with no tool call). -/
def parseFinalResult (calls : List ParsedCall) : Option String :=
  calls.head?.map fun c => c.args.answer

/-- Outcome of a run of the reflexion loop: the final answer with the
number of generate/revise cycles performed and the number of revise cycles
among them, or a crash (an exception escaping a turn) after some number of
cycles. -/
inductive RunOutcome
  | finished (answer : Option String) (cycles revisions : Nat)
  | crashed (cycles : Nat)
deriving DecidableEq, Repr

/-- Number of generate/revise cycles a run performed. -/
def RunOutcome.cycles : RunOutcome → Nat
  | RunOutcome.finished _ c _ => c
  | RunOutcome.crashed c => c

/-- Modelled from the spec: the loop driver built by the base class
`ReflexionAgent` (module `biochatter.langgraph_agent_base`, not among the
sources) — "repeatedly (1) invoke the LLM to obtain a query proposal,
(2) execute the proposed query/queries through the tool executor,
(3) inspect the result to decide whether to stop or to ask the LLM to
revise", with the step budget bounding the LLM invocations. Cycle `i`
appends the parsed LLM output `msgs i` and the tool message computed by
the embedded `_tool_function`, then consults the embedded
`_should_continue` with the cycle count; `fuel` is an arbitrary bound
making the recursion structural. Cycle 0 is the generate cycle, later
cycles are revise cycles. -/
def runFrom (maxSteps : Nat) (db : String → Except String (List BcRow))
    (msgs : Nat → List ParsedCall) :
    Nat → List BcMessage → Nat → Option String → RunOutcome
  | 0, _, i, last => RunOutcome.finished last i (i - 1)
  | fuel + 1, state, i, last =>
    if maxSteps ≤ i then RunOutcome.finished last i (i - 1)
    else
      match toolFunction db (msgs i) with
      | Except.error _ => RunOutcome.crashed (i + 1)
      | Except.ok tm =>
        let nextState := state ++ [BcMessage.ai (msgs i), BcMessage.toolMsg tm.content]
        match shouldContinue maxSteps (i + 1) nextState with
        | Except.error _ => RunOutcome.crashed (i + 1)
        | Except.ok AgentNode.endNode =>
          RunOutcome.finished (parseFinalResult (msgs i)) (i + 1) i
        | Except.ok AgentNode.executeToolNode =>
          runFrom maxSteps db msgs fuel nextState (i + 1) (parseFinalResult (msgs i))

/-- Modelled from the spec: a whole run of the reflexion loop on a user
question, starting with no proposal. -/
def runLoop (maxSteps : Nat) (db : String → Except String (List BcRow))
    (msgs : Nat → List ParsedCall) (fuel : Nat) (question : String) :
    RunOutcome :=
  runFrom maxSteps db msgs fuel [BcMessage.human question] 0 none

theorem runFrom_cycles_le (maxSteps : Nat)
    (db : String → Except String (List BcRow)) (msgs : Nat → List ParsedCall) :
    ∀ fuel state i last, i ≤ maxSteps →
      (runFrom maxSteps db msgs fuel state i last).cycles ≤ maxSteps := by
  intro fuel
  induction fuel with
  | zero =>
    intro state i last hi
    simpa [runFrom, RunOutcome.cycles] using hi
  | succ fuel ih =>
    intro state i last hi
    by_cases hle : maxSteps ≤ i
    · simpa [runFrom, hle, RunOutcome.cycles] using hi
    · have hlt : i + 1 ≤ maxSteps := by omega
      cases htool : toolFunction db (msgs i) with
      | error e =>
        simp [runFrom, if_neg hle, htool, RunOutcome.cycles]
        omega
      | ok tm =>
        cases hsc : shouldContinue maxSteps (i + 1)
            (state ++ [BcMessage.ai (msgs i), BcMessage.toolMsg tm.content]) with
        | error e =>
          simp [runFrom, if_neg hle, htool, hsc, RunOutcome.cycles]
          omega
        | ok node =>
          cases node with
          | endNode =>
            simp [runFrom, if_neg hle, htool, hsc, RunOutcome.cycles]
            omega
          | executeToolNode =>
            have hrec := ih (state ++ [BcMessage.ai (msgs i), BcMessage.toolMsg tm.content])
              (i + 1) (parseFinalResult (msgs i)) hlt
            simpa [runFrom, if_neg hle, htool, hsc] using hrec

/-- **C5.** For every run of the reflexion loop with a configured step
budget `maxSteps` (default 20 in `__init__`), the loop performs at most
that many generate/revise cycles before terminating — for any driver, any
sequence of LLM outputs and any amount of fuel, because the budget check
of the step decision cuts the loop off. -/
theorem loop_cycles_le_max_steps (maxSteps : Nat)
    (db : String → Except String (List BcRow))
    (msgs : Nat → List ParsedCall) (fuel : Nat) (question : String) :
    (runLoop maxSteps db msgs fuel question).cycles ≤ maxSteps :=
  runFrom_cycles_le maxSteps db msgs fuel [BcMessage.human question] 0 none
    (Nat.zero_le maxSteps)

/-- **C6.** If the tool result kept on the first turn is judged non-empty
(its row set is not all-null-like), the loop stops after exactly one
generate cycle with no revise cycle issued (`finished _ 1 0`), and returns
the answer field of the current proposal (via `_parse_final_result`). -/
theorem nonempty_first_result_single_cycle (maxSteps : Nat)
    (db : String → Except String (List BcRow))
    (msgs : Nat → List ParsedCall) (fuel : Nat) (question : String)
    (call : ParsedCall) (rest : List ParsedCall)
    (tm : ToolMessageE) (c0 : ToolPair)
    (hmsgs : msgs 0 = call :: rest)
    (htool : toolFunction db (msgs 0) = Except.ok tm)
    (hcontent : tm.content = some c0)
    (hne : resultSetEmpty c0.result = false)
    (hms : 1 ≤ maxSteps) (hfuel : 1 ≤ fuel) :
    runLoop maxSteps db msgs fuel question =
      RunOutcome.finished (some call.args.answer) 1 0 := by
  obtain ⟨f, rfl⟩ : ∃ f, fuel = f + 1 := ⟨fuel - 1, by omega⟩
  have h0 : ¬ maxSteps = 0 := by omega
  have hnum : getLastToolResultsNum
      [BcMessage.human question, BcMessage.ai (msgs 0),
        BcMessage.toolMsg tm.content] =
      Except.ok (getResultsNum c0.result) := by
    simp [getLastToolResultsNum, hcontent, lastToolResultsAux]
  have hpos : 0 < getResultsNum c0.result := by
    have hnil : c0.result ≠ [] := by
      intro h
      rw [h] at hne
      simp [resultSetEmpty] at hne
    simp only [getResultsNum, hne, if_false, Bool.false_eq_true]
    exact List.length_pos.mpr hnil
  have hsc : shouldContinue maxSteps 1
      [BcMessage.human question, BcMessage.ai (msgs 0),
        BcMessage.toolMsg tm.content] =
      Except.ok AgentNode.endNode := by
    unfold shouldContinue baseShouldContinue
    by_cases h1 : maxSteps ≤ 1
    · simp [h1]
    · simp [h1, hnum, hpos]
  have hanswer : parseFinalResult (msgs 0) = some call.args.answer := by
    simp [parseFinalResult, hmsgs]
  simp [runLoop, runFrom, h0, htool, hsc, hanswer]

/-- Witness for C6: a concrete driver and one-call proposal whose first
result is non-empty make the loop finish in one cycle with the proposal's
answer. -/
theorem nonempty_first_result_single_cycle_witness :
    runLoop 20 dbTwoRows
      (fun _ => [⟨⟨"the answer", "critique", none, none, some ["q"], none⟩,
        "call_6"⟩]) 5 "what regulates TP53" =
      RunOutcome.finished (some "the answer") 1 0 := by
  exact nonempty_first_result_single_cycle 20 dbTwoRows
    (fun _ => [⟨⟨"the answer", "critique", none, none, some ["q"], none⟩,
      "call_6"⟩]) 5 "what regulates TP53"
    ⟨⟨"the answer", "critique", none, none, some ["q"], none⟩, "call_6"⟩ []
    ⟨some ⟨"q", [[("g.name", BcValue.str "r1")], [("g.name", BcValue.str "r2")]]⟩,
      "call_6"⟩
    ⟨"q", [[("g.name", BcValue.str "r1")], [("g.name", BcValue.str "r2")]]⟩
    rfl rfl rfl rfl (by norm_num) (by norm_num)

/-- Python `str.lower()`, as a character-wise map (the schema entry names
are ASCII). -/
def strToLower (s : String) : String :=
  String.mk (s.toList.map Char.toLower)

/-- Python substring test `pat in s`. -/
def strContains (s pat : String) : Bool :=
  decide (pat.toList <:+: s.toList)

/-- The record of one top-level schema entry, with the fields
`BioCypherPrompt` reads: the optional `represented_as` value, the keys of
the optional `properties` mapping (absent or empty both read as falsy),
and the optional `label_as_edge` override. -/
structure SchemaRecord where
  representedAs : Option String
  properties : List String
  labelAsEdge : Option String
deriving DecidableEq, Repr

/-- The two mappings built by `BioCypherPrompt.__init__`:
entity name → record and relationship name → record. -/
abbrev SchemaIndex :=
  List (String × SchemaRecord) × List (String × SchemaRecord)

/-- `name_indicates_relationship` (lines 34-36): the lowercased entry name
contains `"interaction"` or `"association"`. -/
def nameIndicatesRelationship (key : String) : Bool :=
  strContains (strToLower key) "interaction" ||
  strContains (strToLower key) "association"

/-- The body of the classification loop of `BioCypherPrompt.__init__`
(lines 32-49). `pascal` is biocypher's `sentencecase_to_pascalcase`
(external library), kept abstract. An entry without a `represented_as`
key, or with a representation other than `"node"` / `"edge"`, is placed
in neither mapping. -/
def classifyEntry (pascal : String → String) (acc : SchemaIndex)
    (entry : String × SchemaRecord) : SchemaIndex :=
  match entry.2.representedAs with
  | none => acc
  | some r =>
    if r = "node" ∧ nameIndicatesRelationship entry.1 = false then
      (acc.1 ++ [(pascal entry.1, entry.2)], acc.2)
    else if r = "node" ∧ nameIndicatesRelationship entry.1 = true then
      (acc.1, acc.2 ++ [(pascal entry.1, entry.2)])
    else if r = "edge" then
      (acc.1, acc.2 ++ [(pascal entry.1, entry.2)])
    else acc

/-- `BioCypherPrompt.__init__` (lines 30-49): fold the classification over
the top-level schema entries, starting from two empty mappings. -/
def buildSchemaIndex (pascal : String → String)
    (config : List (String × SchemaRecord)) : SchemaIndex :=
  config.foldl (classifyEntry pascal) ([], [])

/-- **C9.** When the schema index is built: an entry with `represented_as`
equal to `"edge"` is classified as a relationship; one with
`represented_as` equal to `"node"` is an entity exactly when its
lowercased name contains neither `"interaction"` nor `"association"` and a
relationship otherwise; an entry without a `represented_as` field goes in
neither mapping. -/
theorem schema_classification_spec (pascal : String → String)
    (config : List (String × SchemaRecord)) (key : String)
    (value : SchemaRecord) :
    (value.representedAs = some "edge" →
      buildSchemaIndex pascal (config ++ [(key, value)]) =
        ((buildSchemaIndex pascal config).1,
         (buildSchemaIndex pascal config).2 ++ [(pascal key, value)]))
  ∧ (value.representedAs = some "node" →
      nameIndicatesRelationship key = false →
      buildSchemaIndex pascal (config ++ [(key, value)]) =
        ((buildSchemaIndex pascal config).1 ++ [(pascal key, value)],
         (buildSchemaIndex pascal config).2))
  ∧ (value.representedAs = some "node" →
      nameIndicatesRelationship key = true →
      buildSchemaIndex pascal (config ++ [(key, value)]) =
        ((buildSchemaIndex pascal config).1,
         (buildSchemaIndex pascal config).2 ++ [(pascal key, value)]))
  ∧ (value.representedAs = none →
      buildSchemaIndex pascal (config ++ [(key, value)]) =
        buildSchemaIndex pascal config) := by
  refine ⟨?_, ?_, ?_, ?_⟩
  · intro h
    simp [buildSchemaIndex, List.foldl_append, classifyEntry, h]
  · intro h hn
    simp [buildSchemaIndex, List.foldl_append, classifyEntry, h, hn]
  · intro h hn
    simp [buildSchemaIndex, List.foldl_append, classifyEntry, h, hn]
  · intro h
    simp [buildSchemaIndex, List.foldl_append, classifyEntry, h]

/-- Witness for C9 at concrete entries of each kind. -/
theorem schema_classification_spec_witness :
    buildSchemaIndex id [("gene", ⟨some "node", ["name"], none⟩)] =
      ([("gene", ⟨some "node", ["name"], none⟩)], []) ∧
    buildSchemaIndex id
      [("gene to disease association", ⟨some "node", [], none⟩)] =
      ([], [("gene to disease association", ⟨some "node", [], none⟩)]) ∧
    buildSchemaIndex id
      [("perturbed in disease", ⟨some "edge", [], some "PERTURBED_IN"⟩)] =
      ([], [("perturbed in disease", ⟨some "edge", [], some "PERTURBED_IN"⟩)]) ∧
    buildSchemaIndex id [("free text", ⟨none, [], none⟩)] = ([], []) := by
  refine ⟨?_, ?_, ?_, ?_⟩
  · simpa using (schema_classification_spec id [] "gene"
      ⟨some "node", ["name"], none⟩).2.1 rfl (by decide)
  · simpa using (schema_classification_spec id [] "gene to disease association"
      ⟨some "node", [], none⟩).2.2.1 rfl (by decide)
  · simpa using (schema_classification_spec id [] "perturbed in disease"
      ⟨some "edge", [], some "PERTURBED_IN"⟩).1 rfl
  · simpa using (schema_classification_spec id [] "free text"
      ⟨none, [], none⟩).2.2.2 rfl

/-- The mutable fields of a `BioCypherPrompt` instance: the two schema
mappings and the state set by `__init__` (lines 51-55) and updated by the
selection steps. -/
structure PromptState where
  entities : List (String × SchemaRecord)
  relationships : List (String × SchemaRecord)
  question : String
  selectedEntities : List String
  selectedRelationships : List String
  selectedRelationshipLabels : List String
  selectedProperties : List (String × List String)
deriving DecidableEq, Repr

/-- The body of the `for entity_or_relationship in result` loop of
`select_entities` (lines 105-114): a name that is a key of `entities` is
appended to `selected_entities`; else a key of `relationships` is appended
to `selected_relationships` together with its `label_as_edge` (defaulting
to the name itself); any other name is dropped. -/
def selectEntitiesStep (acc : PromptState) (name : String) : PromptState :=
  match acc.entities.lookup name with
  | some _ => { acc with selectedEntities := acc.selectedEntities ++ [name] }
  | none =>
    match acc.relationships.lookup name with
    | some r =>
      { acc with
        selectedRelationships := acc.selectedRelationships ++ [name],
        selectedRelationshipLabels :=
          acc.selectedRelationshipLabels ++ [r.labelAsEdge.getD name] }
    | none => acc

/-- `BioCypherPrompt.select_entities` (lines 57-116) with the LLM reply
`reply` passed in: store the question, split the reply on commas (a falsy
reply gives no names), fold the selection step, and return
`bool(result)`. -/
def selectEntities (st : PromptState) (question reply : String) :
    PromptState × Bool :=
  let result := if reply = "" then [] else reply.splitOn ","
  let st1 := { st with question := question }
  (result.foldl selectEntitiesStep st1, !result.isEmpty)

theorem selectEntitiesStep_fold_preserves (name : String) :
    ∀ (l : List String) (acc : PromptState),
      acc.entities.lookup name = none →
      acc.relationships.lookup name = none →
      name ∉ acc.selectedEntities →
      name ∉ acc.selectedRelationships →
      (l.foldl selectEntitiesStep acc).entities.lookup name = none ∧
      (l.foldl selectEntitiesStep acc).relationships.lookup name = none ∧
      name ∉ (l.foldl selectEntitiesStep acc).selectedEntities ∧
      name ∉ (l.foldl selectEntitiesStep acc).selectedRelationships := by
  intro l
  induction l with
  | nil =>
    intro acc hE hR hSE hSR
    exact ⟨hE, hR, hSE, hSR⟩
  | cons x xs ih =>
    intro acc hE hR hSE hSR
    have hstep :
        (selectEntitiesStep acc x).entities.lookup name = none ∧
        (selectEntitiesStep acc x).relationships.lookup name = none ∧
        name ∉ (selectEntitiesStep acc x).selectedEntities ∧
        name ∉ (selectEntitiesStep acc x).selectedRelationships := by
      unfold selectEntitiesStep
      cases hEx : acc.entities.lookup x with
      | some r =>
        refine ⟨hE, hR, ?_, hSR⟩
        simp only [List.mem_append, List.mem_singleton]
        rintro (hmem | rfl)
        · exact hSE hmem
        · rw [hEx] at hE
          cases hE
      | none =>
        cases hRx : acc.relationships.lookup x with
        | some r =>
          refine ⟨hE, hR, hSE, ?_⟩
          simp only [List.mem_append, List.mem_singleton]
          rintro (hmem | rfl)
          · exact hSR hmem
          · rw [hRx] at hR
            cases hR
        | none => exact ⟨hE, hR, hSE, hSR⟩
    exact ih (selectEntitiesStep acc x) hstep.1 hstep.2.1 hstep.2.2.1 hstep.2.2.2

/-- **C7.** A name of the LLM selection output that is a key of neither the
entities mapping nor the relationships mapping is added to neither
`selected_entities` nor `selected_relationships` by `select_entities`
(stated for every name at once: unknown names never enter the selection
lists). -/
theorem select_entities_excludes_unknown (st : PromptState)
    (question reply name : String)
    (hE : st.entities.lookup name = none)
    (hR : st.relationships.lookup name = none)
    (hSE : name ∉ st.selectedEntities)
    (hSR : name ∉ st.selectedRelationships) :
    name ∉ (selectEntities st question reply).1.selectedEntities ∧
    name ∉ (selectEntities st question reply).1.selectedRelationships := by
  unfold selectEntities
  have h := selectEntitiesStep_fold_preserves name
    (if reply = "" then [] else reply.splitOn ",")
    { st with question := question } hE hR hSE hSR
  exact ⟨h.2.2.1, h.2.2.2⟩

/-- A prompt state fresh from `__init__` with one known entity `Gene`. -/
def genePromptState : PromptState :=
  ⟨[("Gene", ⟨some "node", ["name"], none⟩)], [], "", [], [], [], []⟩

/-- Witness for C7: the unknown name `Pathway` is excluded from both
selection lists. -/
theorem select_entities_excludes_unknown_witness :
    "Pathway" ∉
      (selectEntities genePromptState "what?" "Pathway").1.selectedEntities ∧
    "Pathway" ∉
      (selectEntities genePromptState "what?" "Pathway").1.selectedRelationships := by
  exact select_entities_excludes_unknown genePromptState "what?" "Pathway"
    "Pathway" rfl rfl (by simp [genePromptState]) (by simp [genePromptState])

/-- The errors `select_properties` can raise: the two `ValueError`s of
lines 141-158 and the `KeyError` of the uncaught dict indexings at lines
164 and 171. -/
inductive PromptError
  | noQuestion
  | noEntitiesOrRelationships
  | keyErr (name : String)
deriving DecidableEq, Repr

/-- Python `arg or dflt` for an optional string argument: `None` and the
empty string are falsy. -/
def pyOrStr : Option String → String → String
  | some s, dflt => if s = "" then dflt else s
  | none, dflt => dflt

/-- Python `arg or dflt` for an optional list argument: `None` and the
empty list are falsy. -/
def pyOrList : Option (List String) → List String → List String
  | some [], dflt => dflt
  | some (x :: xs), _ => x :: xs
  | none, dflt => dflt

/-- The `e_props` / `r_props` subsetting loops of `select_properties`
(lines 162-174): for each selected name, index the mapping (`KeyError` on
an unknown name) and keep the property keys when the record's
`properties` is truthy. -/
def collectProps (m : List (String × SchemaRecord)) :
    List String → Except PromptError (List (String × List String))
  | [] => Except.ok []
  | name :: rest =>
    match m.lookup name with
    | none => Except.error (PromptError.keyErr name)
    | some r =>
      match collectProps m rest with
      | Except.error e => Except.error e
      | Except.ok tail =>
        Except.ok (if r.properties.isEmpty then tail else (name, r.properties) :: tail)

/-- `BioCypherPrompt.select_properties` (lines 118-205) with the parsed
LLM reply passed in (`none` models a falsy reply, read as `{}`): fall back
from each optional argument to the stored state, raise `ValueError` when
no question is available, raise `ValueError` when neither entities nor
relationships are available, then build the property subsets, store the
reply in `selected_properties` and return its truthiness. -/
def selectProperties (st : PromptState) (question : Option String)
    (entities relationships : Option (List String))
    (reply : Option (List (String × List String))) :
    Except PromptError (PromptState × Bool) :=
  let q := pyOrStr question st.question
  if q = "" then Except.error PromptError.noQuestion
  else
    let es := pyOrList entities st.selectedEntities
    let rs := pyOrList relationships st.selectedRelationships
    if es.isEmpty && rs.isEmpty then
      Except.error PromptError.noEntitiesOrRelationships
    else
      match collectProps st.entities es with
      | Except.error e => Except.error e
      | Except.ok _eProps =>
        match collectProps st.relationships rs with
        | Except.error e => Except.error e
        | Except.ok _rProps =>
          let selected := reply.getD []
          Except.ok ({ st with selectedProperties := selected },
            !selected.isEmpty)

/-- **C8.** `select_properties` raises a `ValueError` when called with no
question argument while no question is stored from a prior
`select_entities` call; and, when a question is available, it raises a
`ValueError` when neither entities nor relationships are passed as
arguments nor available from the entity selection step. -/
theorem select_properties_error_spec (st : PromptState)
    (ents rels : Option (List String))
    (reply : Option (List (String × List String))) :
    (st.question = "" →
      selectProperties st none ents rels reply =
        Except.error PromptError.noQuestion)
  ∧ (∀ q : Option String, pyOrStr q st.question ≠ "" →
      pyOrList ents st.selectedEntities = [] →
      pyOrList rels st.selectedRelationships = [] →
      selectProperties st q ents rels reply =
        Except.error PromptError.noEntitiesOrRelationships) := by
  constructor
  · intro hq
    simp [selectProperties, pyOrStr, hq]
  · intro q hq hes hrs
    simp [selectProperties, hq, hes, hrs]

/-- A prompt state fresh from `__init__` on an empty schema. -/
def emptyPromptState : PromptState := ⟨[], [], "", [], [], [], []⟩

/-- Witness for C8 at concrete states: both error paths fire. -/
theorem select_properties_error_spec_witness :
    selectProperties emptyPromptState none none none none =
      Except.error PromptError.noQuestion ∧
    selectProperties emptyPromptState (some "which genes?") none none none =
      Except.error PromptError.noEntitiesOrRelationships := by
  constructor
  · exact (select_properties_error_spec emptyPromptState none none none).1 rfl
  · exact (select_properties_error_spec emptyPromptState none none none).2
      (some "which genes?") (by decide) rfl rfl
